import Mathlib

/-!
Verification development for the task-printer job-queue system.

Shallow embedding of the job store (`src/mcp_server/job_queue.py`), the
worker loop (`src/printing_service/printer.py`) and the ingress adapter
(`src/mcp_server/fastmcp_server.py`).

Modelling conventions:
* Python `datetime` values are modelled as `Nat` clock ticks; callers pass
  the current time explicitly where the source calls `datetime.now()`.
  `isoformat`/`fromisoformat` form an exact bijection on `datetime` values
  in the source, so a persisted timestamp is modelled as the tick itself
  (wrapped in `Option` where the column is nullable).
* The SQLite row of `print_jobs` is a `Row`: the discrete columns plus the
  serialized `job_data` JSON blob (a `JobDict`).  Both copies are modelled
  separately because the source writes them separately.
* `uuid`s are supplied by the caller as fresh identifier strings.
* SQLite's `ORDER BY ... LIMIT 1` with ties unresolved by the ordering key
  is modelled as returning the first such row in table (insertion) order.
-/

namespace TaskPrinter

/-- Job status enum, `JobStatus` in `job_queue.py`. -/
inductive JobStatus where
  | pending
  | processing
  | completed
  | failed
  | retry
deriving DecidableEq

/-- The string stored in the database for a status (`JobStatus.value`). -/
def JobStatus.value : JobStatus → String
  | .pending => "pending"
  | .processing => "processing"
  | .completed => "completed"
  | .failed => "failed"
  | .retry => "retry"

/-- Parsing a stored status string back to the enum (`JobStatus(s)` in
Python); `none` models the `ValueError` raised on an unknown string. -/
def statusOfValue (s : String) : Option JobStatus :=
  if s = "pending" then some .pending
  else if s = "processing" then some .processing
  else if s = "completed" then some .completed
  else if s = "failed" then some .failed
  else if s = "retry" then some .retry
  else none

/-- In-memory job object, class `PrintJob` of `job_queue.py`. -/
structure PrintJob where
  job_id : String
  job_type : String
  title : String
  description : String
  priority : String
  category : String
  estimated_time : String
  due_date : Option Nat
  created_at : Nat
  status : JobStatus
  retry_count : Nat
  max_retries : Nat
  error_message : Option String
  processed_at : Option Nat
deriving DecidableEq

/-- Incoming task dictionary (`job_data` argument of `PrintJob.__init__`);
every field is optional because Python reads it with `dict.get`. -/
structure JobData where
  job_type : Option String
  title : Option String
  description : Option String
  priority : Option String
  category : Option String
  estimated_time : Option String
  due_date : Option Nat
deriving DecidableEq

/-- The empty task dictionary `{}`. -/
def JobData.empty : JobData :=
  ⟨none, none, none, none, none, none, none⟩

/-- `PrintJob.__init__`: field defaults exactly as in the source. -/
def PrintJob.init (d : JobData) (id : String) (now : Nat) : PrintJob :=
  { job_id := id
    job_type := d.job_type.getD "print_task"
    title := d.title.getD "Untitled Task"
    description := d.description.getD ""
    priority := d.priority.getD "medium"
    category := d.category.getD "other"
    estimated_time := d.estimated_time.getD ""
    due_date := d.due_date
    created_at := now
    status := .pending
    retry_count := 0
    max_retries := 3
    error_message := none
    processed_at := none }

/-- The persisted dictionary form of a job (output of `PrintJob.to_dict`,
also the parsed content of the `job_data` column).  `status` is kept as the
stored string; timestamps as ticks (see module comment). -/
structure JobDict where
  job_id : String
  job_type : String
  title : String
  description : String
  priority : String
  category : String
  estimated_time : String
  due_date : Option Nat
  created_at : Nat
  status : String
  retry_count : Nat
  max_retries : Nat
  error_message : Option String
  processed_at : Option Nat
deriving DecidableEq

/-- `PrintJob.to_dict`. -/
def PrintJob.to_dict (j : PrintJob) : JobDict :=
  { job_id := j.job_id
    job_type := j.job_type
    title := j.title
    description := j.description
    priority := j.priority
    category := j.category
    estimated_time := j.estimated_time
    due_date := j.due_date
    created_at := j.created_at
    status := j.status.value
    retry_count := j.retry_count
    max_retries := j.max_retries
    error_message := j.error_message
    processed_at := j.processed_at }

/-- `PrintJob.from_dict`: constructs via `__init__` on the dict, then
overrides `created_at`, `status`, retry fields, `error_message`,
`processed_at` and `due_date` from the dict.  `none` models the
`ValueError` raised by `JobStatus(data['status'])` on an unknown string.
Net effect on a full 15-key dict, written out field by field. -/
def PrintJob.from_dict (d : JobDict) : Option PrintJob :=
  (statusOfValue d.status).map fun st =>
    { job_id := d.job_id
      job_type := d.job_type
      title := d.title
      description := d.description
      priority := d.priority
      category := d.category
      estimated_time := d.estimated_time
      due_date := d.due_date
      created_at := d.created_at
      status := st
      retry_count := d.retry_count
      max_retries := d.max_retries
      error_message := d.error_message
      processed_at := d.processed_at }

/-- One row of the `print_jobs` table: the discrete columns plus the
serialized `job_data` blob, stored redundantly as in the source schema. -/
structure Row where
  job_id : String
  job_type : String
  title : String
  description : String
  priority : String
  category : String
  estimated_time : String
  due_date : Option Nat
  created_at : Nat
  status : JobStatus
  retry_count : Nat
  max_retries : Nat
  error_message : Option String
  processed_at : Option Nat
  job_data : JobDict
deriving DecidableEq

/-- The row written by `JobQueue.add_job`: every column from the job's
fields, and `job_data = json.dumps(job.to_dict())`. -/
def Row.ofJob (j : PrintJob) : Row :=
  { job_id := j.job_id
    job_type := j.job_type
    title := j.title
    description := j.description
    priority := j.priority
    category := j.category
    estimated_time := j.estimated_time
    due_date := j.due_date
    created_at := j.created_at
    status := j.status
    retry_count := j.retry_count
    max_retries := j.max_retries
    error_message := j.error_message
    processed_at := j.processed_at
    job_data := j.to_dict }

/-- The `print_jobs` table, rows in insertion (rowid) order. -/
structure QueueState where
  rows : List Row
deriving DecidableEq

def emptyState : QueueState := ⟨[]⟩

/-- `SELECT ... FROM print_jobs WHERE job_id = ?` followed by `fetchone()`:
the first row with the given primary key. -/
def findRow (s : QueueState) (id : String) : Option Row :=
  s.rows.find? (fun r => r.job_id == id)

/-- `JobQueue.add_job`: INSERT of the new row.  (The primary-key constraint
would make a duplicate `job_id` raise; callers always pass fresh uuids, so
the model appends unconditionally.) -/
def add_job (s : QueueState) (j : PrintJob) : QueueState :=
  ⟨s.rows ++ [Row.ofJob j]⟩

/-- Effect of `JobQueue.update_job_status` on the matched row: the three
columns are updated, and the same three keys are rewritten inside the
`job_data` blob.  `processed_at` is `now` exactly for completed/failed. -/
def setRowStatus (st : JobStatus) (msg : Option String) (now : Nat) (r : Row) : Row :=
  let pa : Option Nat := if st = .completed ∨ st = .failed then some now else none
  { r with
      status := st
      error_message := msg
      processed_at := pa
      job_data := { r.job_data with
                      status := st.value
                      error_message := msg
                      processed_at := pa } }

/-- `JobQueue.update_job_status`: UPDATE of the row whose `job_id` matches
(a no-op when the id is unknown). -/
def update_job_status (s : QueueState) (id : String) (st : JobStatus)
    (msg : Option String) (now : Nat) : QueueState :=
  ⟨s.rows.map fun r => if r.job_id == id then setRowStatus st msg now r else r⟩

/-- The terminal error text written by `increment_retry_count`. -/
def maxRetriesMsg (m : Nat) : String :=
  "Max retries (" ++ toString m ++ ") exceeded"

/-- Effect of the retry branch of `increment_retry_count` on the matched
row: only the `retry_count` and `status` columns are updated — the
`job_data` blob is left untouched. -/
def incRowRetry (n : Nat) (r : Row) : Row :=
  { r with retry_count := n, status := .retry }

/-- `JobQueue.increment_retry_count`: reads `retry_count`/`max_retries` of
the row; if `retry_count + 1 <= max_retries` it sets `retry_count` and
`status = retry` (columns only) and returns true, otherwise it delegates to
`update_job_status(failed, "Max retries (N) exceeded")` and returns false.
Returns false when the id is unknown. -/
def increment_retry_count (s : QueueState) (id : String) (now : Nat) :
    Bool × QueueState :=
  match findRow s id with
  | none => (false, s)
  | some r =>
      let n := r.retry_count + 1
      if n ≤ r.max_retries then
        (true, ⟨s.rows.map fun x => if x.job_id == id then incRowRetry n x else x⟩)
      else
        (false, update_job_status s id .failed (some (maxRetriesMsg r.max_retries)) now)

/-- `JobQueue.get_job_status`: returns `json.loads(job_data)` of the row —
the serialized blob, not the discrete columns. -/
def get_job_status (s : QueueState) (id : String) : Option JobDict :=
  (findRow s id).map Row.job_data

/-- The SQL `CASE priority WHEN 'high' THEN 3 WHEN 'medium' THEN 2 WHEN
'low' THEN 1 ELSE 0 END` of `get_next_job`. -/
def priorityRank (p : String) : Nat :=
  if p = "high" then 3
  else if p = "medium" then 2
  else if p = "low" then 1
  else 0

/-- The `WHERE status IN ('pending', 'retry')` filter (on the status
column). -/
def Row.eligibleB (r : Row) : Bool :=
  r.status == .pending || r.status == .retry

/-- Strict ordering of `ORDER BY rank DESC, created_at ASC`: `a` sorts
strictly before `b`. -/
def betterRow (a b : Row) : Bool :=
  priorityRank b.priority < priorityRank a.priority ||
    (priorityRank a.priority == priorityRank b.priority && a.created_at < b.created_at)

/-- `ORDER BY ... LIMIT 1` over a list of rows: the minimum under
`betterRow`, with full ties resolved to the first row in table order. -/
def selectBest : List Row → Option Row
  | [] => none
  | r :: rs =>
      match selectBest rs with
      | none => some r
      | some b => if betterRow b r then some b else some r

/-- `JobQueue.get_next_job`: best eligible row, parsed from its `job_data`
blob via `PrintJob.from_dict`. -/
def get_next_job (s : QueueState) : Option PrintJob :=
  (selectBest (s.rows.filter Row.eligibleB)).bind fun r => PrintJob.from_dict r.job_data

/-- `get_next_job` as a state operation: the method only issues a SELECT,
so the table is returned unchanged. -/
def get_next_job_op (s : QueueState) : Option PrintJob × QueueState :=
  (get_next_job s, s)

/-- Outcome of one collaborator invocation `printer.print_task_card(job)`
as seen by `_process_next_job`: the call returned `True`, returned `False`,
or something inside the `try` block raised with message `m`. -/
inductive PrintOutcome where
  | success
  | failure
  | error (m : String)
deriving DecidableEq

/-- `PrintingService._process_next_job`, one poll cycle: claim the next
job, mark it processing, invoke the collaborator, and transition state by
outcome.  On a returned `False` the code only calls
`increment_retry_count` (and logs); on an exception it additionally calls
`update_job_status` with the `"Processing error: ..."` text. -/
def process_next_job (s : QueueState) (outcome : PrintOutcome) (now : Nat) :
    QueueState :=
  match get_next_job s with
  | none => s
  | some job =>
      let s1 := update_job_status s job.job_id .processing none now
      match outcome with
      | .success => update_job_status s1 job.job_id .completed none now
      | .failure => (increment_retry_count s1 job.job_id now).2
      | .error m =>
          let em := "Processing error: " ++ m
          let res := increment_retry_count s1 job.job_id now
          if res.1 then update_job_status res.2 job.job_id .retry (some em) now
          else update_job_status res.2 job.job_id .failed (some em) now

/-- Valid priority strings checked by the single-task ingress tool. -/
def validPriority (p : String) : Bool :=
  p == "high" || p == "medium" || p == "low"

/-- Valid category strings checked by the single-task ingress tool. -/
def validCategory (c : String) : Bool :=
  c == "work" || c == "personal" || c == "urgent" || c == "learning" ||
    c == "health" || c == "other"

/-- Result of an ingress tool call: an accepted submission carrying the
produced job ids, or a rejection message with nothing enqueued. -/
inductive IngressResult where
  | accepted (job_ids : List String)
  | rejected (msg : String)
deriving DecidableEq

/-- `queue_print_task` of `fastmcp_server.py` (single task).  `title` is a
required parameter of the tool schema; the other parameters carry the
declared defaults.  Unknown priority/category are coerced, a job is built
with `PrintJob(job_data)` and enqueued with `add_job`.  `id` stands for
the fresh uuid. -/
def queue_print_task (s : QueueState) (title : String)
    (description priority category estimated_time : String)
    (due_date : Option Nat) (id : String) (now : Nat) :
    IngressResult × QueueState :=
  let priority := if validPriority priority then priority else "medium"
  let category := if validCategory category then category else "other"
  let j := PrintJob.init
    { job_type := none
      title := some title
      description := some description
      priority := some priority
      category := some category
      estimated_time := some estimated_time
      due_date := due_date } id now
  (.accepted [j.job_id], add_job s j)

/-- One element of a batch after the per-element normalization of
`queue_print_tasks`: `setdefault` fills description/priority/category/
estimated_time, then `PrintJob(task_data)` is built and enqueued.  Since
`PrintJob.__init__` applies the same defaults through `dict.get`, the
enqueued job is `PrintJob.init` of the raw element.  A missing `title` is
NOT rejected: `__init__` defaults it to `"Untitled Task"`.  An unparsable
`due_date` was already turned into `none` (model input). -/
def batchEnqueue (s : QueueState) (d : JobData) (id : String) (now : Nat) :
    String × QueueState :=
  let j := PrintJob.init d id now
  (j.job_id, add_job s j)

/-- `queue_print_tasks` of `fastmcp_server.py` (batch): rejects when the
task list is empty or longer than 10, before touching the store; otherwise
enqueues every element (elements that are not dicts are skipped by the
source and are not modelled), pairing each with a caller-supplied fresh
uuid. -/
def queue_print_tasks (s : QueueState) (tasks : List JobData)
    (ids : List String) (now : Nat) : IngressResult × QueueState :=
  if tasks.isEmpty then (.rejected "No tasks provided", s)
  else if tasks.length > 10 then (.rejected "Too many tasks (max 10 per batch)", s)
  else
    let step := fun (acc : List String × QueueState) (p : JobData × String) =>
      let r := batchEnqueue acc.2 p.1 p.2 now
      (acc.1 ++ [r.1], r.2)
    let out := (tasks.zip ids).foldl step ([], s)
    (.accepted out.1, out.2)

/-- Store operation alphabet used for invariant claims: `insert` enqueues
a freshly constructed `PrintJob` (every `add_job` call site builds the job
with `PrintJob(job_data)` first), `setStatus` is `update_job_status`, and
`incRetry` is `increment_retry_count` (its Bool result dropped). -/
inductive StoreOp where
  | insert (d : JobData) (id : String) (now : Nat)
  | setStatus (id : String) (st : JobStatus) (msg : Option String) (now : Nat)
  | incRetry (id : String) (now : Nat)
deriving DecidableEq

def execOp (s : QueueState) : StoreOp → QueueState
  | .insert d id now => add_job s (PrintJob.init d id now)
  | .setStatus id st msg now => update_job_status s id st msg now
  | .incRetry id now => (increment_retry_count s id now).2

def execOps (s : QueueState) (ops : List StoreOp) : QueueState :=
  ops.foldl execOp s

/-- Side condition on an operation: `incRetry` is only applied to a job
that is not already terminal (this is how the worker uses it — it only
retries a job it has just marked `processing`).  With unique primary keys
the `all` quantifies over the single row of that job. -/
def okOp (s : QueueState) : StoreOp → Bool
  | .incRetry id _ =>
      s.rows.all fun r =>
        r.job_id != id || !(r.status == .completed || r.status == .failed)
  | _ => true

/-- All side conditions hold along a run of operations from `s`. -/
def validFrom (s : QueueState) : List StoreOp → Bool
  | [] => true
  | op :: ops => okOp s op && validFrom (execOp s op) ops

/-- Column-level invariant of one row: `processed_at` is set iff the
status is terminal. -/
def rowInv (r : Row) : Bool :=
  r.processed_at.isSome == (r.status == .completed || r.status == .failed)

/-- The invariant over the whole table. -/
def stateInv (s : QueueState) : Bool :=
  s.rows.all rowInv

/-- Fixture: a job built from the empty task dictionary `{}`. -/
def jobA : PrintJob := PrintJob.init JobData.empty "a" 0

/-- Fixture: a queue holding only `jobA`. -/
def stateA : QueueState := add_job emptyState jobA

/-- Fixture: `stateA` after one poll cycle whose collaborator call
returned `False`. -/
def failOnceState : QueueState := process_next_job stateA PrintOutcome.failure 1

/-- Fixture for the concrete spec scenario: submit
`{title:"Buy milk", priority:"high"}` through the single-task tool. -/
def buyMilkS1 : QueueState :=
  (queue_print_task emptyState "Buy milk" "" "high" "other" "" none "j1" 0).2

/-- Scenario: first worker attempt raises. -/
def buyMilkS2 : QueueState :=
  process_next_job buyMilkS1 (PrintOutcome.error "connection lost") 1

/-- Scenario: second worker attempt raises. -/
def buyMilkS3 : QueueState :=
  process_next_job buyMilkS2 (PrintOutcome.error "paper jam") 2

/-- Scenario: third worker attempt succeeds. -/
def buyMilkS4 : QueueState := process_next_job buyMilkS3 PrintOutcome.success 3

/-- Fixture: jobs with priorities low, high, medium inserted in that
order at times 1, 2, 3. -/
def jobLow : PrintJob :=
  PrintJob.init ⟨none, some "L", none, some "low", none, none, none⟩ "a" 1

def jobHigh : PrintJob :=
  PrintJob.init ⟨none, some "H", none, some "high", none, none, none⟩ "b" 2

def jobMed : PrintJob :=
  PrintJob.init ⟨none, some "M", none, some "medium", none, none, none⟩ "c" 3

def stateLHM : QueueState :=
  add_job (add_job (add_job emptyState jobLow) jobHigh) jobMed

/-- `stateLHM` after the high job has been completed. -/
def stateLHM2 : QueueState := update_job_status stateLHM "b" .completed none 10

/-- `stateLHM2` after the medium job has been completed. -/
def stateLHM3 : QueueState := update_job_status stateLHM2 "c" .completed none 11

/-- Fixture: two equal-priority jobs inserted at times 1 and 2. -/
def stateFifo : QueueState :=
  add_job
    (add_job emptyState
      (PrintJob.init ⟨none, some "first", none, some "medium", none, none, none⟩ "f1" 1))
    (PrintJob.init ⟨none, some "second", none, some "medium", none, none, none⟩ "f2" 2)

/-- Operation sequence whose final `incRetry` hits a job that is already
terminal. -/
def badStatusOps : List StoreOp :=
  [.insert JobData.empty "a" 0, .setStatus "a" .completed none 1, .incRetry "a" 2]

/-- Operation sequence respecting the worker's usage of `incRetry`. -/
def goodStatusOps : List StoreOp :=
  [.insert JobData.empty "a" 0, .incRetry "a" 1, .setStatus "a" .completed none 2]

/-- Batch of a single task dictionary with no `title` key. -/
def titlelessBatch : IngressResult × QueueState :=
  queue_print_tasks emptyState [JobData.empty] ["id1"] 0

/-- A batch of 11 empty task dictionaries. -/
def elevenTasks : List JobData := List.replicate 11 JobData.empty

/-- Row of a freshly enqueued job. -/
def freshRow (d : JobData) (id : String) (t0 : Nat) : Row :=
  Row.ofJob (PrintJob.init d id t0)

/-- Row evolution of one failing worker cycle (collaborator returned
`False`) at time `t`, for a job whose retries are not yet exhausted:
marked processing, then retry count incremented with the status column
set back to `retry`. -/
def failStep (t : Nat) (r : Row) : Row :=
  incRowRetry (r.retry_count + 1) (setRowStatus .processing none t r)

theorem statusOfValue_value (st : JobStatus) : statusOfValue st.value = some st := by
  cases st <;> rfl

theorem setRowStatus_job_id (st : JobStatus) (msg : Option String) (now : Nat)
    (r : Row) : (setRowStatus st msg now r).job_id = r.job_id := rfl

theorem incRowRetry_job_id (n : Nat) (r : Row) :
    (incRowRetry n r).job_id = r.job_id := rfl

theorem find_map_guard (l : List Row) (id : String) (f : Row → Row)
    (hf : ∀ r, (f r).job_id = r.job_id) :
    (l.map fun r => if r.job_id == id then f r else r).find?
        (fun r => r.job_id == id)
      = (l.find? (fun r => r.job_id == id)).map f := by
  induction l with
  | nil => rfl
  | cons a t ih =>
      simp only [List.map_cons]
      by_cases h : (a.job_id == id) = true
      · rw [if_pos h]
        simp only [List.find?_cons]
        simp [hf, h]
      · rw [if_neg h]
        simp only [List.find?_cons]
        simp only [Bool.not_eq_true] at h
        simp only [h]
        exact ih

theorem findRow_update_self (s : QueueState) (id : String) (st : JobStatus)
    (msg : Option String) (now : Nat) :
    findRow (update_job_status s id st msg now) id
      = (findRow s id).map (setRowStatus st msg now) := by
  unfold findRow update_job_status
  exact find_map_guard s.rows id _ (fun r => rfl)

theorem findRow_inc_row (s : QueueState) (id : String) (n : Nat) :
    findRow ⟨s.rows.map fun x => if x.job_id == id then incRowRetry n x else x⟩ id
      = (findRow s id).map (incRowRetry n) := by
  unfold findRow
  exact find_map_guard s.rows id _ (fun r => rfl)

theorem betterRow_irrefl (a : Row) : betterRow a a = false := by
  simp [betterRow]

theorem betterRow_asymm (a b : Row) (h : betterRow a b = true) :
    betterRow b a = false := by
  simp only [betterRow, Bool.or_eq_true, Bool.and_eq_true, decide_eq_true_eq,
    beq_iff_eq] at h
  simp only [betterRow, Bool.or_eq_false_iff, Bool.and_eq_false_iff,
    decide_eq_false_iff_not, beq_eq_false_iff_ne, ne_eq]
  omega

theorem betterRow_neg_trans (x b r : Row) (h1 : betterRow x b = false)
    (h2 : betterRow b r = false) : betterRow x r = false := by
  simp only [betterRow, Bool.or_eq_false_iff, Bool.and_eq_false_iff,
    decide_eq_false_iff_not, beq_eq_false_iff_ne, ne_eq] at h1 h2 ⊢
  omega

theorem selectBest_eq_none (l : List Row) :
    selectBest l = none ↔ l = [] := by
  cases l with
  | nil => simp [selectBest]
  | cons a t =>
      simp only [selectBest]
      cases selectBest t with
      | none => simp
      | some b =>
          show (if betterRow b a = true then some b else some a) = none ↔ a :: t = []
          split <;> simp

theorem selectBest_mem (l : List Row) (r : Row) (h : selectBest l = some r) :
    r ∈ l := by
  induction l generalizing r with
  | nil => simp [selectBest] at h
  | cons a t ih =>
      simp only [selectBest] at h
      cases hb : selectBest t with
      | none => simp only [hb] at h; simp at h; simp [h]
      | some b =>
          simp only [hb] at h
          by_cases hc : betterRow b a = true
          · rw [if_pos hc] at h
            simp at h; subst h
            exact List.mem_cons_of_mem _ (ih _ hb)
          · rw [if_neg hc] at h
            simp at h; simp [h]

theorem selectBest_best (l : List Row) (r : Row) (h : selectBest l = some r) :
    ∀ x ∈ l, betterRow x r = false := by
  induction l generalizing r with
  | nil => simp [selectBest] at h
  | cons a t ih =>
      simp only [selectBest] at h
      intro x hx
      cases hb : selectBest t with
      | none =>
          simp only [hb] at h; simp at h; subst h
          rcases List.mem_cons.mp hx with hxa | hxt
          · subst hxa; exact betterRow_irrefl x
          · rw [(selectBest_eq_none t).mp hb] at hxt
            simp at hxt
      | some b =>
          simp only [hb] at h
          by_cases hc : betterRow b a = true
          · rw [if_pos hc] at h
            simp at h; subst h
            rcases List.mem_cons.mp hx with hxa | hxt
            · subst hxa; exact betterRow_asymm _ _ hc
            · exact ih _ hb x hxt
          · rw [if_neg hc] at h
            simp at h; subst h
            rcases List.mem_cons.mp hx with hxa | hxt
            · subst hxa; exact betterRow_irrefl x
            · exact betterRow_neg_trans x b _ (ih _ hb x hxt)
                (by simpa using hc)

theorem increment_eq_none (s : QueueState) (id : String) (now : Nat)
    (hf : findRow s id = none) :
    increment_retry_count s id now = (false, s) := by
  unfold increment_retry_count
  rw [hf]

theorem increment_eq_pos (s : QueueState) (id : String) (now : Nat) (r : Row)
    (hf : findRow s id = some r) (hle : r.retry_count + 1 ≤ r.max_retries) :
    increment_retry_count s id now =
      (true, ⟨s.rows.map fun x =>
        if x.job_id == id then incRowRetry (r.retry_count + 1) x else x⟩) := by
  unfold increment_retry_count
  rw [hf]
  simp [hle]

theorem increment_eq_neg (s : QueueState) (id : String) (now : Nat) (r : Row)
    (hf : findRow s id = some r) (hgt : ¬ r.retry_count + 1 ≤ r.max_retries) :
    increment_retry_count s id now =
      (false, update_job_status s id .failed (some (maxRetriesMsg r.max_retries)) now) := by
  unfold increment_retry_count
  rw [hf]
  simp [hgt]

theorem rowInv_setRowStatus (st : JobStatus) (msg : Option String) (now : Nat)
    (r : Row) : rowInv (setRowStatus st msg now r) = true := by
  cases st <;> simp [rowInv, setRowStatus]

theorem stateInv_update (s : QueueState) (id : String) (st : JobStatus)
    (msg : Option String) (now : Nat) (h : stateInv s = true) :
    stateInv (update_job_status s id st msg now) = true := by
  simp only [stateInv, update_job_status, List.all_eq_true] at h ⊢
  intro x hx
  rcases List.mem_map.mp hx with ⟨a, ha, rfl⟩
  by_cases hid : (a.job_id == id) = true
  · rw [if_pos hid]
    exact rowInv_setRowStatus st msg now a
  · rw [if_neg hid]
    exact h a ha

theorem stateInv_execOp (s : QueueState) (op : StoreOp)
    (h : stateInv s = true) (hok : okOp s op = true) :
    stateInv (execOp s op) = true := by
  cases op with
  | insert d id now =>
      simp only [execOp, stateInv, add_job, List.all_append, List.all_cons,
        List.all_nil, Bool.and_eq_true] at h ⊢
      exact ⟨h, by constructor, trivial⟩
  | setStatus id st msg now =>
      exact stateInv_update s id st msg now h
  | incRetry id now =>
      simp only [execOp]
      cases hf : findRow s id with
      | none => rw [increment_eq_none s id now hf]; exact h
      | some r =>
          by_cases hle : r.retry_count + 1 ≤ r.max_retries
          · rw [increment_eq_pos s id now r hf hle]
            simp only [stateInv, List.all_eq_true] at h ⊢
            simp only [okOp, List.all_eq_true] at hok
            intro x hx
            rcases List.mem_map.mp hx with ⟨a, ha, rfl⟩
            by_cases hid : (a.job_id == id) = true
            · rw [if_pos hid]
              have haok := hok a ha
              rw [bne, hid] at haok
              simp only [Bool.not_true, Bool.false_or, Bool.not_eq_true'] at haok
              have hainv := h a ha
              rw [rowInv, haok] at hainv
              simp only [beq_iff_eq] at hainv
              simp [rowInv, incRowRetry, hainv]
            · rw [if_neg hid]
              exact h a ha
          · rw [increment_eq_neg s id now r hf hle]
            exact stateInv_update s id .failed (some (maxRetriesMsg r.max_retries)) now h

theorem stateInv_execOps (ops : List StoreOp) : ∀ s : QueueState,
    stateInv s = true → validFrom s ops = true →
    stateInv (execOps s ops) = true := by
  induction ops with
  | nil => intro s h _; exact h
  | cons op ops ih =>
      intro s h hv
      simp only [validFrom, Bool.and_eq_true] at hv
      exact ih (execOp s op) (stateInv_execOp s op h hv.1) hv.2

theorem from_dict_to_dict (j : PrintJob) :
    PrintJob.from_dict j.to_dict = some j := by
  simp [PrintJob.from_dict, PrintJob.to_dict, statusOfValue_value]

theorem findRow_single (r : Row) (id : String) (hid : r.job_id = id) :
    findRow ⟨[r]⟩ id = some r := by
  simp [findRow, List.find?, hid]

theorem update_single (r : Row) (id : String) (st : JobStatus)
    (msg : Option String) (now : Nat) (hid : r.job_id = id) :
    update_job_status ⟨[r]⟩ id st msg now = ⟨[setRowStatus st msg now r]⟩ := by
  simp [update_job_status, hid]

theorem increment_single_pos (r : Row) (id : String) (now : Nat)
    (hid : r.job_id = id) (hle : r.retry_count + 1 ≤ r.max_retries) :
    increment_retry_count ⟨[r]⟩ id now
      = (true, ⟨[incRowRetry (r.retry_count + 1) r]⟩) := by
  rw [increment_eq_pos _ _ _ r (findRow_single r id hid) hle]
  simp [hid]

theorem increment_single_neg (r : Row) (id : String) (now : Nat)
    (hid : r.job_id = id) (hgt : ¬ r.retry_count + 1 ≤ r.max_retries) :
    increment_retry_count ⟨[r]⟩ id now
      = (false, ⟨[setRowStatus .failed (some (maxRetriesMsg r.max_retries)) now r]⟩) := by
  rw [increment_eq_neg _ _ _ r (findRow_single r id hid) hgt]
  rw [update_single r id _ _ _ hid]

theorem get_next_job_single (r : Row) (helig : r.eligibleB = true) :
    get_next_job ⟨[r]⟩ = PrintJob.from_dict r.job_data := by
  simp [get_next_job, selectBest, List.filter_cons, helig]

theorem process_single_success (r : Row) (st : JobStatus) (now : Nat)
    (helig : r.eligibleB = true)
    (hst : statusOfValue r.job_data.status = some st)
    (hbid : r.job_data.job_id = r.job_id) :
    process_next_job ⟨[r]⟩ .success now
      = ⟨[setRowStatus .completed none now (setRowStatus .processing none now r)]⟩ := by
  unfold process_next_job
  rw [get_next_job_single r helig]
  simp only [PrintJob.from_dict, hst, Option.map_some']
  rw [hbid]
  rw [update_single r _ .processing none now rfl]
  rw [update_single _ _ .completed none now (setRowStatus_job_id _ _ _ _)]

theorem process_single_failure (r : Row) (st : JobStatus) (now : Nat)
    (helig : r.eligibleB = true)
    (hst : statusOfValue r.job_data.status = some st)
    (hbid : r.job_data.job_id = r.job_id)
    (hle : r.retry_count + 1 ≤ r.max_retries) :
    process_next_job ⟨[r]⟩ .failure now
      = ⟨[incRowRetry (r.retry_count + 1) (setRowStatus .processing none now r)]⟩ := by
  unfold process_next_job
  rw [get_next_job_single r helig]
  simp only [PrintJob.from_dict, hst, Option.map_some']
  rw [hbid]
  rw [update_single r _ .processing none now rfl]
  rw [increment_single_pos _ _ _ (setRowStatus_job_id _ _ _ _) hle]
  rfl

theorem process_single_failure_exhausted (r : Row) (st : JobStatus) (now : Nat)
    (helig : r.eligibleB = true)
    (hst : statusOfValue r.job_data.status = some st)
    (hbid : r.job_data.job_id = r.job_id)
    (hgt : ¬ r.retry_count + 1 ≤ r.max_retries) :
    process_next_job ⟨[r]⟩ .failure now
      = ⟨[setRowStatus .failed (some (maxRetriesMsg r.max_retries)) now
            (setRowStatus .processing none now r)]⟩ := by
  unfold process_next_job
  rw [get_next_job_single r helig]
  simp only [PrintJob.from_dict, hst, Option.map_some']
  rw [hbid]
  rw [update_single r _ .processing none now rfl]
  rw [increment_single_neg _ _ _ (setRowStatus_job_id _ _ _ _) hgt]
  rfl

theorem process_single_error (r : Row) (st : JobStatus) (m : String) (now : Nat)
    (helig : r.eligibleB = true)
    (hst : statusOfValue r.job_data.status = some st)
    (hbid : r.job_data.job_id = r.job_id)
    (hle : r.retry_count + 1 ≤ r.max_retries) :
    process_next_job ⟨[r]⟩ (.error m) now
      = ⟨[setRowStatus .retry (some ("Processing error: " ++ m)) now
            (incRowRetry (r.retry_count + 1) (setRowStatus .processing none now r))]⟩ := by
  unfold process_next_job
  rw [get_next_job_single r helig]
  simp only [PrintJob.from_dict, hst, Option.map_some']
  rw [hbid]
  rw [update_single r _ .processing none now rfl]
  rw [increment_single_pos _ _ _ (setRowStatus_job_id _ _ _ _) hle]
  dsimp only
  rw [if_pos rfl]
  exact (update_single
    (incRowRetry ((setRowStatus JobStatus.processing none now r).retry_count + 1)
      (setRowStatus JobStatus.processing none now r))
    r.job_id .retry (some ("Processing error: " ++ m)) now rfl).trans rfl

theorem process_single_error_exhausted (r : Row) (st : JobStatus) (m : String)
    (now : Nat)
    (helig : r.eligibleB = true)
    (hst : statusOfValue r.job_data.status = some st)
    (hbid : r.job_data.job_id = r.job_id)
    (hgt : ¬ r.retry_count + 1 ≤ r.max_retries) :
    process_next_job ⟨[r]⟩ (.error m) now
      = ⟨[setRowStatus .failed (some ("Processing error: " ++ m)) now
            (setRowStatus .failed (some (maxRetriesMsg r.max_retries)) now
              (setRowStatus .processing none now r))]⟩ := by
  unfold process_next_job
  rw [get_next_job_single r helig]
  simp only [PrintJob.from_dict, hst, Option.map_some']
  rw [hbid]
  rw [update_single r _ .processing none now rfl]
  rw [increment_single_neg _ _ _ (setRowStatus_job_id _ _ _ _) hgt]
  dsimp only
  rw [if_neg (by simp)]
  exact (update_single
    (setRowStatus JobStatus.failed
      (some (maxRetriesMsg (setRowStatus JobStatus.processing none now r).max_retries)) now
      (setRowStatus JobStatus.processing none now r))
    r.job_id .failed (some ("Processing error: " ++ m)) now rfl).trans rfl

theorem findRow_process_success (s : QueueState) (job : PrintJob) (r : Row)
    (now : Nat) (hclaim : get_next_job s = some job)
    (hrow : findRow s job.job_id = some r) :
    findRow (process_next_job s .success now) job.job_id
      = some (setRowStatus .completed none now
          (setRowStatus .processing none now r)) := by
  unfold process_next_job
  rw [hclaim]
  rw [findRow_update_self, findRow_update_self, hrow]
  rfl

theorem findRow_process_failure (s : QueueState) (job : PrintJob) (r : Row)
    (now : Nat) (hclaim : get_next_job s = some job)
    (hrow : findRow s job.job_id = some r)
    (hle : r.retry_count + 1 ≤ r.max_retries) :
    findRow (process_next_job s .failure now) job.job_id
      = some (incRowRetry (r.retry_count + 1)
          (setRowStatus .processing none now r)) := by
  unfold process_next_job
  rw [hclaim]
  dsimp only
  have h1 : findRow (update_job_status s job.job_id .processing none now)
      job.job_id = some (setRowStatus .processing none now r) := by
    rw [findRow_update_self, hrow]; rfl
  rw [increment_eq_pos _ _ now _ h1 hle]
  dsimp only
  rw [findRow_inc_row, h1]
  rfl

theorem findRow_process_failure_exhausted (s : QueueState) (job : PrintJob)
    (r : Row) (now : Nat) (hclaim : get_next_job s = some job)
    (hrow : findRow s job.job_id = some r)
    (hgt : ¬ r.retry_count + 1 ≤ r.max_retries) :
    findRow (process_next_job s .failure now) job.job_id
      = some (setRowStatus .failed (some (maxRetriesMsg r.max_retries)) now
          (setRowStatus .processing none now r)) := by
  unfold process_next_job
  rw [hclaim]
  dsimp only
  have h1 : findRow (update_job_status s job.job_id .processing none now)
      job.job_id = some (setRowStatus .processing none now r) := by
    rw [findRow_update_self, hrow]; rfl
  rw [increment_eq_neg _ _ now _ h1 hgt]
  dsimp only
  rw [findRow_update_self, h1]
  rfl

theorem findRow_process_error (s : QueueState) (job : PrintJob) (r : Row)
    (m : String) (now : Nat) (hclaim : get_next_job s = some job)
    (hrow : findRow s job.job_id = some r)
    (hle : r.retry_count + 1 ≤ r.max_retries) :
    findRow (process_next_job s (.error m) now) job.job_id
      = some (setRowStatus .retry (some ("Processing error: " ++ m)) now
          (incRowRetry (r.retry_count + 1)
            (setRowStatus .processing none now r))) := by
  unfold process_next_job
  rw [hclaim]
  dsimp only
  have h1 : findRow (update_job_status s job.job_id .processing none now)
      job.job_id = some (setRowStatus .processing none now r) := by
    rw [findRow_update_self, hrow]; rfl
  rw [increment_eq_pos _ _ now _ h1 hle]
  dsimp only
  rw [if_pos rfl]
  rw [findRow_update_self, findRow_inc_row, h1]
  rfl

theorem findRow_process_error_exhausted (s : QueueState) (job : PrintJob)
    (r : Row) (m : String) (now : Nat) (hclaim : get_next_job s = some job)
    (hrow : findRow s job.job_id = some r)
    (hgt : ¬ r.retry_count + 1 ≤ r.max_retries) :
    findRow (process_next_job s (.error m) now) job.job_id
      = some (setRowStatus .failed (some ("Processing error: " ++ m)) now
          (setRowStatus .failed (some (maxRetriesMsg r.max_retries)) now
            (setRowStatus .processing none now r))) := by
  unfold process_next_job
  rw [hclaim]
  dsimp only
  have h1 : findRow (update_job_status s job.job_id .processing none now)
      job.job_id = some (setRowStatus .processing none now r) := by
    rw [findRow_update_self, hrow]; rfl
  rw [increment_eq_neg _ _ now _ h1 hgt]
  dsimp only
  rw [if_neg (by simp)]
  rw [findRow_update_self, findRow_update_self, h1]
  rfl

/-- C9: serialization round-trip — for every job, converting it to its
persisted dictionary form (`to_dict`) and reading it back (`from_dict`)
yields the identical job, with absent optional fields coming back absent
(`none`), never as empty-string placeholders. -/
theorem round_trip_serialization (j : PrintJob) :
    PrintJob.from_dict j.to_dict = some j :=
  from_dict_to_dict j

/-- C4: `increment_retry_count` never raises `retry_count` above
`max_retries`: whenever it stores a new count the result is bounded by
`max_retries`, otherwise the count is unchanged; if
`retry_count + 1 <= max_retries` it sets `retry_count + 1` and status
`retry` and returns true; if `retry_count` already equals `max_retries` it
returns false, leaves `retry_count` unchanged, and forces status `failed`
with the max-retries-exceeded error message. -/
theorem increment_retry_count_spec (s : QueueState) (id : String) (now : Nat)
    (r : Row) (h : findRow s id = some r) :
    (∀ x, findRow (increment_retry_count s id now).2 id = some x →
      x.retry_count ≤ r.max_retries ∨ x.retry_count = r.retry_count) ∧
    (r.retry_count + 1 ≤ r.max_retries →
      (increment_retry_count s id now).1 = true ∧
      findRow (increment_retry_count s id now).2 id
        = some (incRowRetry (r.retry_count + 1) r) ∧
      (incRowRetry (r.retry_count + 1) r).retry_count = r.retry_count + 1 ∧
      (incRowRetry (r.retry_count + 1) r).status = JobStatus.retry) ∧
    (r.retry_count = r.max_retries →
      (increment_retry_count s id now).1 = false ∧
      findRow (increment_retry_count s id now).2 id
        = some (setRowStatus .failed (some (maxRetriesMsg r.max_retries)) now r) ∧
      (setRowStatus .failed (some (maxRetriesMsg r.max_retries)) now r).retry_count
        = r.retry_count ∧
      (setRowStatus .failed (some (maxRetriesMsg r.max_retries)) now r).status
        = JobStatus.failed ∧
      (setRowStatus .failed (some (maxRetriesMsg r.max_retries)) now r).error_message
        = some (maxRetriesMsg r.max_retries)) := by
  refine ⟨?_, ?_, ?_⟩
  · intro x hx
    by_cases hle : r.retry_count + 1 ≤ r.max_retries
    · simp only [increment_eq_pos s id now r h hle] at hx
      rw [findRow_inc_row, h] at hx
      simp only [Option.map_some', Option.some_inj] at hx
      subst hx
      exact Or.inl hle
    · simp only [increment_eq_neg s id now r h hle] at hx
      rw [findRow_update_self, h] at hx
      simp only [Option.map_some', Option.some_inj] at hx
      subst hx
      exact Or.inr rfl
  · intro hle
    rw [increment_eq_pos s id now r h hle]
    refine ⟨rfl, ?_, rfl, rfl⟩
    dsimp only
    rw [findRow_inc_row, h]
    rfl
  · intro heq
    have hgt : ¬ r.retry_count + 1 ≤ r.max_retries := by omega
    rw [increment_eq_neg s id now r h hgt]
    refine ⟨rfl, ?_, rfl, rfl, rfl⟩
    dsimp only
    rw [findRow_update_self, h]
    rfl

/-- C4 witness: the specification applied to a concrete single-job state. -/
theorem increment_retry_count_spec_witness :
    (increment_retry_count stateA "a" 5).1 = true ∧
    findRow (increment_retry_count stateA "a" 5).2 "a"
      = some (incRowRetry ((Row.ofJob jobA).retry_count + 1) (Row.ofJob jobA)) ∧
    (incRowRetry ((Row.ofJob jobA).retry_count + 1) (Row.ofJob jobA)).retry_count
      = (Row.ofJob jobA).retry_count + 1 ∧
    (incRowRetry ((Row.ofJob jobA).retry_count + 1) (Row.ofJob jobA)).status
      = JobStatus.retry :=
  (increment_retry_count_spec stateA "a" 5 (Row.ofJob jobA) (by decide)).2.1
    (by decide)

/-- C8 counterexample: the unrestricted biconditional fails on the column
state — after insert, setStatus(completed), incrementRetry the job's
status column is `retry` while `processed_at` is still set. -/
theorem processed_at_counterexample :
    stateInv (execOps emptyState badStatusOps) = false ∧
    (findRow (execOps emptyState badStatusOps) "a").map Row.status
      = some JobStatus.retry ∧
    (findRow (execOps emptyState badStatusOps) "a").map Row.processed_at
      = some (some 1) := by
  decide

/-- C8 (amended): for every sequence of store operations in which
`incrementRetry` is only applied to jobs not already terminal (as the
worker does), every job's `processed_at` is set iff its status is
completed or failed. -/
theorem processed_at_iff_terminal (ops : List StoreOp)
    (h : validFrom emptyState ops = true) :
    stateInv (execOps emptyState ops) = true :=
  stateInv_execOps ops emptyState rfl h

/-- C8 witness: the invariant holds along a concrete valid run. -/
theorem processed_at_iff_terminal_witness :
    validFrom emptyState goodStatusOps = true ∧
    stateInv (execOps emptyState goodStatusOps) = true :=
  ⟨by decide, processed_at_iff_terminal goodStatusOps (by decide)⟩

/-- C3: `get_next_job` returns an eligible (pending/retry) job maximal in
`(priority_rank DESC, created_at ASC)` with rank high=3, medium=2, low=1;
it returns none iff no eligible job exists; the call mutates nothing; and
for jobs inserted in order [low, high, medium] successive claims yield
high, then medium, then low, with FIFO tiebreak at equal priority. -/
theorem get_next_job_spec (s : QueueState)
    (hwf : ∀ r ∈ s.rows, (PrintJob.from_dict r.job_data).isSome = true) :
    (priorityRank "high" = 3 ∧ priorityRank "medium" = 2 ∧
      priorityRank "low" = 1) ∧
    (get_next_job s = none ↔ s.rows.filter Row.eligibleB = []) ∧
    (∀ j, get_next_job s = some j →
      ∃ r, r ∈ s.rows ∧ r.eligibleB = true ∧
        PrintJob.from_dict r.job_data = some j ∧
        ∀ x ∈ s.rows, x.eligibleB = true →
          priorityRank x.priority ≤ priorityRank r.priority ∧
          (priorityRank x.priority = priorityRank r.priority →
            r.created_at ≤ x.created_at)) ∧
    get_next_job_op s = (get_next_job s, s) ∧
    ((get_next_job stateLHM).map PrintJob.job_id = some "b" ∧
     (get_next_job stateLHM2).map PrintJob.job_id = some "c" ∧
     (get_next_job stateLHM3).map PrintJob.job_id = some "a" ∧
     (get_next_job stateFifo).map PrintJob.job_id = some "f1" ∧
     get_next_job emptyState = none) := by
  refine ⟨⟨rfl, rfl, rfl⟩, ?_, ?_, rfl, by decide⟩
  · unfold get_next_job
    cases hf : s.rows.filter Row.eligibleB with
    | nil => simp [selectBest]
    | cons a l =>
        cases hsb : selectBest (a :: l) with
        | none =>
            have := (selectBest_eq_none (a :: l)).mp hsb
            simp at this
        | some b =>
            have hmem : b ∈ s.rows :=
              List.mem_of_mem_filter (hf ▸ selectBest_mem _ _ hsb)
            have hsome := hwf b hmem
            constructor
            · intro hnone
              rw [Option.isSome_iff_exists] at hsome
              obtain ⟨j, hj⟩ := hsome
              have hnone2 : PrintJob.from_dict b.job_data = none := hnone
              rw [hj] at hnone2
              exact Option.noConfusion hnone2
            · intro hc
              exact absurd hc (List.cons_ne_nil a l)
  · intro j hj
    unfold get_next_job at hj
    cases hsb : selectBest (s.rows.filter Row.eligibleB) with
    | none => rw [hsb] at hj; simp at hj
    | some b =>
        rw [hsb] at hj
        have hj2 : PrintJob.from_dict b.job_data = some j := hj
        have hbf := selectBest_mem _ _ hsb
        refine ⟨b, List.mem_of_mem_filter hbf, (List.mem_filter.mp hbf).2, hj2, ?_⟩
        intro x hx hex
        have hxf : x ∈ s.rows.filter Row.eligibleB :=
          List.mem_filter.mpr ⟨hx, hex⟩
        have hnb := selectBest_best _ _ hsb x hxf
        simp only [betterRow, Bool.or_eq_false_iff, Bool.and_eq_false_iff,
          decide_eq_false_iff_not, beq_eq_false_iff_ne, ne_eq] at hnb
        omega

/-- C3 witness: the ordering specification applied to the concrete
[low, high, medium] fixture. -/
theorem get_next_job_spec_witness :
    (get_next_job stateLHM).map PrintJob.job_id = some "b" ∧
    (get_next_job stateLHM2).map PrintJob.job_id = some "c" ∧
    (get_next_job stateLHM3).map PrintJob.job_id = some "a" ∧
    (get_next_job stateFifo).map PrintJob.job_id = some "f1" ∧
    get_next_job emptyState = none :=
  (get_next_job_spec stateLHM (by decide)).2.2.2.2

/-- C10: every `update_job_status` call overwrites the stored
`error_message` (column and blob copy) with its argument, whose default is
absent; consequently the worker's `processing` and `completed` updates
erase any earlier error text, so a job completed by the worker ends with
`error_message` absent. -/
theorem set_status_overwrites_error (s : QueueState) (job : PrintJob)
    (r : Row) (now : Nat) (hclaim : get_next_job s = some job)
    (hrow : findRow s job.job_id = some r) :
    (∀ s1 id st msg t x,
      findRow (update_job_status s1 id st msg t) id = some x →
        x.error_message = msg ∧ x.job_data.error_message = msg) ∧
    ((findRow (process_next_job s .success now) job.job_id).map Row.status
        = some JobStatus.completed ∧
     (findRow (process_next_job s .success now) job.job_id).map Row.error_message
        = some none ∧
     (get_job_status (process_next_job s .success now) job.job_id).map
        JobDict.error_message = some none ∧
     (get_job_status (process_next_job s .success now) job.job_id).map
        JobDict.status = some "completed") := by
  constructor
  · intro s1 id st msg t x hx
    rw [findRow_update_self] at hx
    cases hf : findRow s1 id with
    | none => rw [hf] at hx; exact Option.noConfusion hx
    | some y =>
        rw [hf] at hx
        simp only [Option.map_some', Option.some_inj] at hx
        subst hx
        exact ⟨rfl, rfl⟩
  · have h := findRow_process_success s job r now hclaim hrow
    simp only [get_job_status, h]
    exact ⟨rfl, rfl, rfl, rfl⟩

/-- C10 witness: the success path applied to a concrete single-job state. -/
theorem set_status_overwrites_error_witness :
    (findRow (process_next_job stateA .success 7) jobA.job_id).map Row.status
      = some JobStatus.completed ∧
    (findRow (process_next_job stateA .success 7) jobA.job_id).map Row.error_message
      = some none ∧
    (get_job_status (process_next_job stateA .success 7) jobA.job_id).map
      JobDict.error_message = some none ∧
    (get_job_status (process_next_job stateA .success 7) jobA.job_id).map
      JobDict.status = some "completed" :=
  (set_status_overwrites_error stateA jobA (Row.ofJob jobA) 7 (by decide)
    (by decide)).2

/-- C6 counterexample: after a worker attempt whose collaborator call
returned `False` (no exception), `incrementRetry` returned true (the
status column is `retry`), yet no `setStatus(retry, error_message)`
followed: the stored error text is absent and the `job_data` blob still
says `processing`. -/
theorem failure_return_no_error_recorded :
    (findRow failOnceState "a").map Row.status = some JobStatus.retry ∧
    (findRow failOnceState "a").map Row.error_message = some none ∧
    (get_job_status failOnceState "a").map JobDict.error_message = some none ∧
    (get_job_status failOnceState "a").map JobDict.status = some "processing" ∧
    ¬ ((get_job_status failOnceState "a").map JobDict.status = some "retry") := by
  decide

/-- C6 (amended): every failing worker attempt calls `incrementRetry`, but
only the exception branch additionally records the error text through
`setStatus`; a returned-`False` failure records nothing (column status
`retry`, blob left at `processing`, error absent); whenever
`incrementRetry` returns false the job ends with status `failed`. -/
theorem worker_failure_handling (s : QueueState) (job : PrintJob) (r : Row)
    (now : Nat) (hclaim : get_next_job s = some job)
    (hrow : findRow s job.job_id = some r) :
    (r.retry_count + 1 ≤ r.max_retries →
      (findRow (process_next_job s .failure now) job.job_id).map Row.retry_count
          = some (r.retry_count + 1) ∧
      (findRow (process_next_job s .failure now) job.job_id).map Row.status
          = some JobStatus.retry ∧
      (findRow (process_next_job s .failure now) job.job_id).map Row.error_message
          = some none ∧
      (get_job_status (process_next_job s .failure now) job.job_id).map
          JobDict.error_message = some none ∧
      (get_job_status (process_next_job s .failure now) job.job_id).map
          JobDict.status = some "processing") ∧
    (¬ r.retry_count + 1 ≤ r.max_retries →
      (findRow (process_next_job s .failure now) job.job_id).map Row.status
          = some JobStatus.failed ∧
      (findRow (process_next_job s .failure now) job.job_id).map Row.error_message
          = some (some (maxRetriesMsg r.max_retries))) ∧
    (∀ m, r.retry_count + 1 ≤ r.max_retries →
      (findRow (process_next_job s (.error m) now) job.job_id).map Row.status
          = some JobStatus.retry ∧
      (findRow (process_next_job s (.error m) now) job.job_id).map Row.error_message
          = some (some ("Processing error: " ++ m)) ∧
      (get_job_status (process_next_job s (.error m) now) job.job_id).map
          JobDict.error_message = some (some ("Processing error: " ++ m))) ∧
    (∀ m, ¬ r.retry_count + 1 ≤ r.max_retries →
      (findRow (process_next_job s (.error m) now) job.job_id).map Row.status
          = some JobStatus.failed ∧
      (findRow (process_next_job s (.error m) now) job.job_id).map Row.error_message
          = some (some ("Processing error: " ++ m))) := by
  refine ⟨?_, ?_, ?_, ?_⟩
  · intro hle
    have h := findRow_process_failure s job r now hclaim hrow hle
    simp only [get_job_status, h]
    exact ⟨rfl, rfl, rfl, rfl, rfl⟩
  · intro hgt
    have h := findRow_process_failure_exhausted s job r now hclaim hrow hgt
    simp only [h]
    exact ⟨rfl, rfl⟩
  · intro m hle
    have h := findRow_process_error s job r m now hclaim hrow hle
    simp only [get_job_status, h]
    exact ⟨rfl, rfl, rfl⟩
  · intro m hgt
    have h := findRow_process_error_exhausted s job r m now hclaim hrow hgt
    simp only [h]
    exact ⟨rfl, rfl⟩

/-- C6 witness: the returned-`False` branch applied to a concrete
single-job state. -/
theorem worker_failure_handling_witness :
    (findRow (process_next_job stateA .failure 1) jobA.job_id).map Row.retry_count
        = some ((Row.ofJob jobA).retry_count + 1) ∧
    (findRow (process_next_job stateA .failure 1) jobA.job_id).map Row.status
        = some JobStatus.retry ∧
    (findRow (process_next_job stateA .failure 1) jobA.job_id).map Row.error_message
        = some none ∧
    (get_job_status (process_next_job stateA .failure 1) jobA.job_id).map
        JobDict.error_message = some none ∧
    (get_job_status (process_next_job stateA .failure 1) jobA.job_id).map
        JobDict.status = some "processing" :=
  (worker_failure_handling stateA jobA (Row.ofJob jobA) 1 (by decide)
    (by decide)).1 (by decide)

/-- C2 counterexample: a job whose collaborator call fails on exactly 3
consecutive attempts does NOT end in status `failed` — it is in status
`retry` with `retry_count = 3` and still eligible; a 4th failing attempt
is needed to reach `failed`. -/
theorem three_failures_not_failed :
    (findRow (process_next_job (process_next_job (process_next_job stateA
        PrintOutcome.failure 1) PrintOutcome.failure 2) PrintOutcome.failure 3)
      "a").map Row.status = some JobStatus.retry ∧
    ¬ ((findRow (process_next_job (process_next_job (process_next_job stateA
        PrintOutcome.failure 1) PrintOutcome.failure 2) PrintOutcome.failure 3)
      "a").map Row.status = some JobStatus.failed) ∧
    (findRow (process_next_job (process_next_job (process_next_job stateA
        PrintOutcome.failure 1) PrintOutcome.failure 2) PrintOutcome.failure 3)
      "a").map Row.retry_count = some 3 := by
  decide

/-- C2 (amended): for every freshly created job (max_retries = 3): after
exactly 3 failing attempts it is in status `retry` with retry_count = 3;
after 4 consecutive failing attempts it ends `failed` with
retry_count = max_retries = 3; after 2 failing attempts followed by a
success it ends `completed` with retry_count = 2. -/
theorem retry_bound_behaviour (d : JobData) (id : String)
    (t0 t1 t2 t3 t4 u : Nat) :
    ((findRow (process_next_job (process_next_job (process_next_job
        (add_job emptyState (PrintJob.init d id t0))
        .failure t1) .failure t2) .failure t3) id).map Row.status
        = some JobStatus.retry ∧
     (findRow (process_next_job (process_next_job (process_next_job
        (add_job emptyState (PrintJob.init d id t0))
        .failure t1) .failure t2) .failure t3) id).map Row.retry_count
        = some 3) ∧
    ((findRow (process_next_job (process_next_job (process_next_job
        (process_next_job (add_job emptyState (PrintJob.init d id t0))
        .failure t1) .failure t2) .failure t3) .failure t4) id).map Row.status
        = some JobStatus.failed ∧
     (findRow (process_next_job (process_next_job (process_next_job
        (process_next_job (add_job emptyState (PrintJob.init d id t0))
        .failure t1) .failure t2) .failure t3) .failure t4) id).map Row.retry_count
        = some 3 ∧
     (findRow (process_next_job (process_next_job (process_next_job
        (process_next_job (add_job emptyState (PrintJob.init d id t0))
        .failure t1) .failure t2) .failure t3) .failure t4) id).map Row.max_retries
        = some 3 ∧
     (findRow (process_next_job (process_next_job (process_next_job
        (process_next_job (add_job emptyState (PrintJob.init d id t0))
        .failure t1) .failure t2) .failure t3) .failure t4) id).map Row.error_message
        = some (some (maxRetriesMsg 3))) ∧
    ((findRow (process_next_job (process_next_job (process_next_job
        (add_job emptyState (PrintJob.init d id t0))
        .failure t1) .failure t2) .success u) id).map Row.status
        = some JobStatus.completed ∧
     (findRow (process_next_job (process_next_job (process_next_job
        (add_job emptyState (PrintJob.init d id t0))
        .failure t1) .failure t2) .success u) id).map Row.retry_count
        = some 2) := by
  have e0 : add_job emptyState (PrintJob.init d id t0) = ⟨[freshRow d id t0]⟩ :=
    rfl
  have h1 : process_next_job ⟨[freshRow d id t0]⟩ .failure t1
      = ⟨[failStep t1 (freshRow d id t0)]⟩ :=
    process_single_failure _ .pending t1 rfl rfl rfl
      (by show (1:Nat) ≤ 3; decide)
  have h2 : process_next_job ⟨[failStep t1 (freshRow d id t0)]⟩ .failure t2
      = ⟨[failStep t2 (failStep t1 (freshRow d id t0))]⟩ :=
    process_single_failure _ .processing t2 rfl rfl rfl
      (by show (2:Nat) ≤ 3; decide)
  have h3 : process_next_job ⟨[failStep t2 (failStep t1 (freshRow d id t0))]⟩
        .failure t3
      = ⟨[failStep t3 (failStep t2 (failStep t1 (freshRow d id t0)))]⟩ :=
    process_single_failure _ .processing t3 rfl rfl rfl
      (by show (3:Nat) ≤ 3; decide)
  have h4 : process_next_job
        ⟨[failStep t3 (failStep t2 (failStep t1 (freshRow d id t0)))]⟩
        .failure t4
      = ⟨[setRowStatus .failed (some (maxRetriesMsg 3)) t4
           (setRowStatus .processing none t4
             (failStep t3 (failStep t2 (failStep t1 (freshRow d id t0)))))]⟩ :=
    process_single_failure_exhausted _ .processing t4 rfl rfl rfl
      (by show ¬ (4:Nat) ≤ 3; decide)
  have hs : process_next_job ⟨[failStep t2 (failStep t1 (freshRow d id t0))]⟩
        .success u
      = ⟨[setRowStatus .completed none u (setRowStatus .processing none u
           (failStep t2 (failStep t1 (freshRow d id t0))))]⟩ :=
    process_single_success _ .processing u rfl rfl rfl
  rw [e0, h1, h2, h3, h4, hs]
  rw [findRow_single _ id rfl, findRow_single _ id rfl, findRow_single _ id rfl]
  exact ⟨⟨rfl, rfl⟩, ⟨rfl, rfl, rfl, rfl⟩, ⟨rfl, rfl⟩⟩

/-- C1 counterexample: in the spec scenario (submit "Buy milk"/high, two
raising attempts, then success) the final `get_status` does NOT report
`retry_count = 2` nor the second failure's error text: it reads the
serialized `job_data` blob, whose `retry_count` is never updated by
`increment_retry_count` and whose `error_message` was overwritten with
`none` by the processing/completed updates. -/
theorem buy_milk_counterexample :
    (get_job_status buyMilkS4 "j1").map JobDict.status = some "completed" ∧
    (get_job_status buyMilkS4 "j1").map JobDict.retry_count = some 0 ∧
    ¬ ((get_job_status buyMilkS4 "j1").map JobDict.retry_count = some 2) ∧
    (get_job_status buyMilkS4 "j1").map JobDict.error_message = some none := by
  decide

/-- C1 (amended): submitting `{title:"Buy milk", priority:"high"}` makes
`get_status` report pending/high/other/0; after two raising attempts and a
success the committed `retry_count` column is 2, but `get_status` (which
returns the job's serialized `job_data`) reports status completed,
`retry_count` 0 (the blob is never updated by `increment_retry_count`),
no error message, and a set `processed_at`; an unknown job id yields a
not-found `none`. -/
theorem buy_milk_scenario :
    ((get_job_status buyMilkS1 "j1").map JobDict.status = some "pending" ∧
     (get_job_status buyMilkS1 "j1").map JobDict.priority = some "high" ∧
     (get_job_status buyMilkS1 "j1").map JobDict.category = some "other" ∧
     (get_job_status buyMilkS1 "j1").map JobDict.retry_count = some 0) ∧
    ((get_job_status buyMilkS4 "j1").map JobDict.status = some "completed" ∧
     (findRow buyMilkS4 "j1").map Row.retry_count = some 2 ∧
     (get_job_status buyMilkS4 "j1").map JobDict.retry_count = some 0 ∧
     (get_job_status buyMilkS4 "j1").map JobDict.error_message = some none ∧
     (get_job_status buyMilkS4 "j1").map JobDict.processed_at = some (some 3)) ∧
    get_job_status buyMilkS4 "nope" = none := by
  decide

/-- C5 (code bug): a batch element whose dictionary has no `title` key is
not rejected — the batch is accepted, one job is enqueued with the default
title "Untitled Task", and its job id is produced. -/
theorem titleless_batch_enqueues :
    titlelessBatch.1 = IngressResult.accepted ["id1"] ∧
    titlelessBatch.2.rows.length = 1 ∧
    (findRow titlelessBatch.2 "id1").map Row.title = some "Untitled Task" ∧
    (get_job_status titlelessBatch.2 "id1").map JobDict.status = some "pending" := by
  decide

/-- C7: batch submission rejects wholesale when the task list is empty or
longer than 10: the store is unchanged and no accepted job-id list is
produced. -/
theorem batch_size_rejection (s : QueueState) (tasks : List JobData)
    (ids : List String) (now : Nat)
    (h : tasks.length = 0 ∨ tasks.length > 10) :
    (queue_print_tasks s tasks ids now).2 = s ∧
    ∀ jids, (queue_print_tasks s tasks ids now).1 ≠ IngressResult.accepted jids := by
  rcases h with h | h
  · have he : tasks.isEmpty = true := by
      cases tasks with
      | nil => rfl
      | cons a t => simp at h
    simp [queue_print_tasks, he]
  · have he : tasks.isEmpty = false := by
      cases tasks with
      | nil => simp at h
      | cons a t => rfl
    simp [queue_print_tasks, he, h]

/-- C7 witness: a batch of 11 tasks is rejected with no state change. -/
theorem batch_size_rejection_witness :
    elevenTasks.length > 10 ∧
    (queue_print_tasks emptyState elevenTasks [] 0).2 = emptyState ∧
    ∀ jids, (queue_print_tasks emptyState elevenTasks [] 0).1
      ≠ IngressResult.accepted jids :=
  ⟨by decide,
   (batch_size_rejection emptyState elevenTasks [] 0 (Or.inr (by decide))).1,
   (batch_size_rejection emptyState elevenTasks [] 0 (Or.inr (by decide))).2⟩

end TaskPrinter
